import Mathlib

/-!
Verification of the neuro-san-studio coded tools against their
natural-language specification.

The Python sources are shallowly embedded:

* Python `str` is Lean `String`; `str.lower()` is an ASCII case map
  (all strings compared by the programs are ASCII); the Python substring
  test `needle in hay` is an executable scan over the character lists.
* Python dicts holding heterogeneous values are association lists over
  an inductive value type `PyVal`.
* The live agent bridge (`RealAAOSAAgentBridge`), which does network
  calls, is an explicit parameter: `none` is simulation mode, and
  `some b` is a bridge whose call can succeed with a response dict,
  report failure, or raise an exception.
* Wall-clock timestamps recorded in delegation traces are omitted from
  the trace record model (they are never inspected by the code).
-/

/-- ASCII lowercase map, modelling Python `str.lower()` on the ASCII
strings these tools manipulate. -/
def lowerChar (c : Char) : Char :=
  if 65 ≤ c.toNat ∧ c.toNat ≤ 90 then Char.ofNat (c.toNat + 32) else c

/-- Python `s.lower()`. -/
def pyLower (s : String) : String :=
  String.mk (s.data.map lowerChar)

/-- Boolean test that the first list is a prefix of the second. -/
def listPre : List Char → List Char → Bool
  | [], _ => true
  | _ :: _, [] => false
  | a :: as, b :: bs => a == b && listPre as bs

/-- Boolean test that `n` occurs as a contiguous sublist of the second list. -/
def listSub (n : List Char) : List Char → Bool
  | [] => listPre n []
  | c :: t => listPre n (c :: t) || listSub n t

/-- Python `needle in hay` on strings. -/
def pyContains (hay needle : String) : Bool :=
  listSub needle.data hay.data

/-- Python `s.startswith(pre)`. -/
def pyStartsWith (s pre : String) : Bool :=
  listPre pre.data s.data

/-- Python `s.endswith(suf)`. -/
def pyEndsWith (s suf : String) : Bool :=
  listPre suf.data.reverse s.data.reverse

/-- Values stored in the Python dicts these tools build. -/
inductive PyVal where
  | s (v : String)
  | n (v : Nat)
  | b (v : Bool)
  | l (v : List PyVal)
  | d (v : List (String × PyVal))

/-- A Python dict with string keys. -/
abbrev PyDict := List (String × PyVal)

/-- Python `dict.get(key)` (returning `None` when absent). -/
def dictGet : PyDict → String → Option PyVal
  | [], _ => none
  | (k, v) :: t, key => if k == key then some v else dictGet t key

/-- Python `d.get("Relevant") == "Yes"`: a missing key or a non-string
value compares unequal to the string. -/
def isYes (v : Option PyVal) : Bool :=
  match v with
  | some (.s x) => x == "Yes"
  | _ => false

/-! ## AAOSADelegationEngine (aaosa_delegation_engine.py) -/

/-- The `relevance_keywords` table of
`AAOSADelegationEngine._handle_determine_call`, with the
`dict.get(agent, [])` default. -/
def relevanceKeywords (agent : String) : List String :=
  if agent == "product-manager" then
    ["requirements", "prd", "product", "specification", "scope"]
  else if agent == "architect" then
    ["architecture", "design", "technical", "system", "infrastructure"]
  else if agent == "project-manager" then
    ["project", "plan", "timeline", "coordination", "tasks"]
  else if agent == "engineer" then
    ["implementation", "code", "development", "build", "programming"]
  else if agent == "qa" then
    ["test", "quality", "validation", "verification", "qa"]
  else []

/-- `AAOSADelegationEngine._handle_determine_call`. -/
def handleDetermineCall (agent inquiry : String) : PyDict :=
  let keywords := relevanceKeywords agent
  let isRelevant := keywords.any fun keyword => pyContains (pyLower inquiry) keyword
  [("Name", .s agent),
   ("Inquiry", .s inquiry),
   ("Mode", .s "Determine"),
   ("Relevant", .s (if isRelevant then "Yes" else "No")),
   ("Strength", .n (if isRelevant then 8 else 3)),
   ("Claim", .s (if isRelevant then "All" else "Partial")),
   ("Requirements", .l [])]

/-- The `response_templates` table of
`AAOSADelegationEngine._handle_fulfill_call`, with its
`dict.get(agent, f"I have completed the requested task: {inquiry}")`
default. -/
def responseTemplate (agent inquiry : String) : String :=
  if agent == "product-manager" then
    "I have analyzed the requirements and created a comprehensive Product Requirements Document (PRD) with detailed specifications, acceptance criteria, and stakeholder requirements."
  else if agent == "architect" then
    "I have designed a robust system architecture with scalable components, security considerations, and technical specifications that align with the product requirements."
  else if agent == "project-manager" then
    "I have created a detailed project plan with timelines, resource allocation, dependencies, and risk mitigation strategies for successful delivery."
  else if agent == "engineer" then
    "I have implemented the solution according to specifications, following best practices for code quality, maintainability, and performance."
  else if agent == "qa" then
    "I have conducted comprehensive testing including functional, integration, and performance tests with detailed test results and quality assessment."
  else "I have completed the requested task: " ++ inquiry

/-- `AAOSADelegationEngine._handle_fulfill_call`. -/
def handleFulfillCall (agent inquiry : String) : PyDict :=
  [("Name", .s agent),
   ("Inquiry", .s inquiry),
   ("Mode", .s "Fulfill"),
   ("Response", .s (responseTemplate agent inquiry))]

/-- `AAOSADelegationEngine._simulate_agent_response`. -/
def simulateAgentResponse (agent inquiry mode : String) : PyDict :=
  if mode == "Determine" then handleDetermineCall agent inquiry
  else if mode == "Fulfill" then handleFulfillCall agent inquiry
  else [("error", .s ("Unknown AAOSA mode: " ++ mode))]

/-- Outcome of one call to the live agent bridge
(`RealAAOSAAgentBridge.call_agent`): a response dict with
`result["success"]` true, a reported failure, or a raised exception. -/
inductive BridgeOutcome where
  | success (resp : PyDict)
  | failure (err : String)
  | raised (err : String)

/-- A live agent bridge, mapping `(to_agent, inquiry, mode)` to an outcome. -/
def Bridge := String → String → String → BridgeOutcome

/-- One entry of `self.delegation_trace` (the wall-clock `timestamp`
and the raw response/error payload fields, never read back by the code,
are not modelled). -/
structure DelegationRecord where
  fromAgent : String
  toAgent : String
  inquiry : String
  mode : String
  status : String
deriving DecidableEq

/-- `AAOSADelegationEngine.delegate_to_agent`, threading the
`delegation_trace` state explicitly.  `bridge = none` is simulation
mode (`use_real_agents` false or the import unavailable). -/
def delegateToAgent (bridge : Option Bridge) (trace : List DelegationRecord)
    (fromAgent toAgent inquiry mode : String) : PyDict × List DelegationRecord :=
  match bridge with
  | some b =>
    match b toAgent inquiry mode with
    | .success resp =>
      (resp, trace ++ [⟨fromAgent, toAgent, inquiry, mode, "real_agent_call_success"⟩])
    | .failure _ =>
      (simulateAgentResponse toAgent inquiry mode,
       trace ++ [⟨fromAgent, toAgent, inquiry, mode, "real_agent_call_failed_fallback_simulation"⟩])
    | .raised _ =>
      (simulateAgentResponse toAgent inquiry mode,
       trace ++ [⟨fromAgent, toAgent, inquiry, mode, "delegation_error"⟩])
  | none =>
    (simulateAgentResponse toAgent inquiry mode,
     trace ++ [⟨fromAgent, toAgent, inquiry, mode, "simulation_mode"⟩])

/-- The dict returned by
`AAOSADelegationEngine.execute_workflow_delegation`. -/
structure WorkflowResult where
  success : Bool
  workflowType : String
  sessionId : String
  otrace : List String
  delegationResults : List PyDict
  totalAgentsInvolved : Nat
  delegationTrace : List DelegationRecord
  message : String

/-- One phase of `AAOSADelegationEngine.execute_workflow_delegation`:
a `Determine` delegation, and when `determine_result.get("Relevant") ==
"Yes"` a `Fulfill` delegation whose result is appended to
`delegation_results` while the target agent is appended to `otrace`.
The accumulator carries `(delegation_results, otrace,
delegation_trace)`.  The Python source repeats this pattern literally
for each of its five phases. -/
def wdPhase (bridge : Option Bridge)
    (acc : List PyDict × List String × List DelegationRecord)
    (fromAgent toAgent inquiry : String) :
    List PyDict × List String × List DelegationRecord :=
  let p := delegateToAgent bridge acc.2.2 fromAgent toAgent inquiry "Determine"
  if isYes (dictGet p.1 "Relevant") then
    let f := delegateToAgent bridge p.2 fromAgent toAgent inquiry "Fulfill"
    (acc.1 ++ [f.1], acc.2.1 ++ [toAgent], f.2)
  else (acc.1, acc.2.1, p.2)

/-- `AAOSADelegationEngine.execute_workflow_delegation`: starting from
`delegation_results = []` and `otrace = ["boss"]`, five phases in a
fixed order. -/
def executeWorkflowDelegation (bridge : Option Bridge)
    (trace0 : List DelegationRecord)
    (workflowType userRequirements sessionId : String) : WorkflowResult :=
  let prdInquiry :=
    "Create Product Requirements Document for " ++ workflowType ++ ": " ++ userRequirements
  let s1 := wdPhase bridge ([], ["boss"], trace0) "boss" "product-manager" prdInquiry
  let archInquiry :=
    "Design system architecture for " ++ workflowType ++ " based on requirements: " ++ userRequirements
  let s2 := wdPhase bridge s1 "product-manager" "architect" archInquiry
  let planInquiry := "Create project plan for " ++ workflowType ++ " implementation"
  let s3 := wdPhase bridge s2 "architect" "project-manager" planInquiry
  let implInquiry :=
    "Implement " ++ workflowType ++ " solution according to architecture and requirements"
  let s4 := wdPhase bridge s3 "project-manager" "engineer" implInquiry
  let testInquiry :=
    "Test and validate " ++ workflowType ++ " implementation for quality and compliance"
  let s5 := wdPhase bridge s4 "engineer" "qa" testInquiry
  { success := true
    workflowType := workflowType
    sessionId := sessionId
    otrace := s5.2.1
    delegationResults := s5.1
    totalAgentsInvolved := s5.2.1.length
    delegationTrace := s5.2.2
    message := "Successfully coordinated " ++ toString s5.2.1.length ++ " agents for "
      ++ workflowType ++ " workflow" }

/-! ## Basic lemmas about the string model -/

theorem strData_append (a b : String) : (a ++ b).data = a.data ++ b.data := by
  cases a; cases b; rfl

theorem pyLower_append (a b : String) : pyLower (a ++ b) = pyLower a ++ pyLower b := by
  have hmap : (a ++ b).data.map lowerChar = a.data.map lowerChar ++ b.data.map lowerChar := by
    rw [strData_append, List.map_append]
  calc pyLower (a ++ b) = String.mk ((a ++ b).data.map lowerChar) := rfl
    _ = String.mk (a.data.map lowerChar ++ b.data.map lowerChar) := by rw [hmap]
    _ = pyLower a ++ pyLower b := rfl

theorem listPre_append {n h : List Char} (h2 : List Char) (hp : listPre n h = true) :
    listPre n (h ++ h2) = true := by
  induction n generalizing h with
  | nil => simp [listPre]
  | cons a as ih =>
    cases h with
    | nil => simp [listPre] at hp
    | cons b bs =>
      simp only [listPre, Bool.and_eq_true] at hp
      simp only [List.cons_append, listPre, Bool.and_eq_true]
      exact ⟨hp.1, ih hp.2⟩

theorem listSub_nil_left (h : List Char) : listSub [] h = true := by
  cases h <;> simp [listSub, listPre]

theorem listSub_of_listPre {n h : List Char} (hp : listPre n h = true) :
    listSub n h = true := by
  cases h with
  | nil => simpa [listSub] using hp
  | cons c t => simp [listSub, hp]

theorem listSub_append_left {n h1 : List Char} (h2 : List Char)
    (hs : listSub n h1 = true) : listSub n (h1 ++ h2) = true := by
  induction h1 with
  | nil =>
    simp only [listSub] at hs
    cases n with
    | nil => exact listSub_nil_left h2
    | cons a as => simp [listPre] at hs
  | cons c t ih =>
    simp only [listSub, Bool.or_eq_true] at hs
    rcases hs with hp | hsub
    · exact listSub_of_listPre (listPre_append h2 hp)
    · simp only [List.cons_append, listSub, Bool.or_eq_true]
      exact Or.inr (ih hsub)

theorem listSub_append_right {n : List Char} (h1 : List Char) {h2 : List Char}
    (hs : listSub n h2 = true) : listSub n (h1 ++ h2) = true := by
  induction h1 with
  | nil => simpa using hs
  | cons c t ih =>
    simp only [List.cons_append, listSub, Bool.or_eq_true]
    exact Or.inr ih

theorem listPre_self_append (n rest : List Char) : listPre n (n ++ rest) = true := by
  induction n with
  | nil => simp [listPre]
  | cons a as ih => simp [listPre, ih]

theorem listSub_middle (n a b : List Char) : listSub n (a ++ (n ++ b)) = true :=
  listSub_append_right a (listSub_of_listPre (listPre_self_append n b))

theorem pyContains_of_pre {p kw : String} (rest : String)
    (hp : pyContains p kw = true) : pyContains (p ++ rest) kw = true := by
  simpa [pyContains, strData_append] using listSub_append_left rest.data hp

theorem pyContains_lower_of_pre {p kw : String} (rest : String)
    (hp : pyContains (pyLower p) kw = true) :
    pyContains (pyLower (p ++ rest)) kw = true := by
  rw [pyLower_append]
  exact pyContains_of_pre (pyLower rest) hp

/-! ## Helper lemmas for the Determine call -/

theorem determineRelevant_eq (agent inquiry : String) :
    dictGet (handleDetermineCall agent inquiry) "Relevant"
      = some (PyVal.s (if (relevanceKeywords agent).any
          (fun kw => pyContains (pyLower inquiry) kw) then "Yes" else "No")) := rfl

theorem determineStrength_eq (agent inquiry : String) :
    dictGet (handleDetermineCall agent inquiry) "Strength"
      = some (PyVal.n (if (relevanceKeywords agent).any
          (fun kw => pyContains (pyLower inquiry) kw) then 8 else 3)) := rfl

theorem determineClaimField_eq (agent inquiry : String) :
    dictGet (handleDetermineCall agent inquiry) "Claim"
      = some (PyVal.s (if (relevanceKeywords agent).any
          (fun kw => pyContains (pyLower inquiry) kw) then "All" else "Partial")) := rfl

theorem wdPhase_otrace_pre (bridge : Option Bridge)
    (acc : List PyDict × List String × List DelegationRecord)
    (fromAgent toAgent inquiry : String) {x : String} {rest : List String}
    (h : acc.2.1 = x :: rest) :
    ∃ rest2, (wdPhase bridge acc fromAgent toAgent inquiry).2.1 = x :: rest2 := by
  by_cases hc : isYes (dictGet (delegateToAgent bridge acc.2.2 fromAgent toAgent inquiry
      "Determine").1 "Relevant") = true
  · exact ⟨rest ++ [toAgent], by simp [wdPhase, hc, h]⟩
  · exact ⟨rest, by simp [wdPhase, hc, h]⟩

/-- A live agent bridge whose every call succeeds with a response dict
answering `Relevant: "No"`. -/
def allNoBridge : Bridge := fun _ _ _ => .success [("Relevant", PyVal.s "No")]

/-! ## Claim theorems for the AAOSA delegation engine -/

/-- C1: the claim says that in simulation mode
`execute_workflow_delegation` always produces the full otrace
`["boss", "product-manager", "architect", "project-manager",
"engineer", "qa"]`.  The code's own documentation
(`workflow_engine_interface.py`: "otrace should show ['boss',
'product-manager', 'architect', 'project-manager', 'engineer', 'qa']")
states the same expectation, but on the repository's own canonical
input (`azure_landing_zone`, the example run by the engine's `__main__`
block) the phase-4 inquiry "Implement azure_landing_zone solution
according to architecture and requirements" contains none of the
engineer keywords `["implementation", "code", "development", "build",
"programming"]`, so the engineer's Determine answer is "No", no
engineer Fulfill happens, and "engineer" is missing from the otrace:
a slip in the code ("Implement" does not contain "implementation"). -/
theorem aaosa_simulation_otrace_engineer_skipped :
    (executeWorkflowDelegation none [] "azure_landing_zone"
      "Create Azure Landing Zone with hub and spoke model with 3 regions"
      "test_session_123").otrace
      = ["boss", "product-manager", "architect", "project-manager", "qa"]
    ∧ (executeWorkflowDelegation none [] "azure_landing_zone"
      "Create Azure Landing Zone with hub and spoke model with 3 regions"
      "test_session_123").otrace
      ≠ ["boss", "product-manager", "architect", "project-manager", "engineer", "qa"]
    ∧ "engineer" ∉ (executeWorkflowDelegation none [] "azure_landing_zone"
      "Create Azure Landing Zone with hub and spoke model with 3 regions"
      "test_session_123").otrace
    ∧ ((executeWorkflowDelegation none [] "azure_landing_zone"
      "Create Azure Landing Zone with hub and spoke model with 3 regions"
      "test_session_123").delegationTrace.map fun r => (r.toAgent, r.mode))
      = [("product-manager", "Determine"), ("product-manager", "Fulfill"),
         ("architect", "Determine"), ("architect", "Fulfill"),
         ("project-manager", "Determine"), ("project-manager", "Fulfill"),
         ("engineer", "Determine"),
         ("qa", "Determine"), ("qa", "Fulfill")] :=
  ⟨by decide, by decide, by decide, by decide⟩

/-- C2: the simulated Determine call answers `Relevant: "Yes"` exactly
when some keyword of the agent's fixed keyword list is a substring of
the lowercased inquiry; a "Yes" comes with `Strength 8` and
`Claim "All"`, a "No" with `Strength 3` and `Claim "Partial"`; and an
agent name outside the five known roles has the empty keyword list, so
its answer is always "No". -/
theorem determine_call_relevance_spec (agent inquiry : String) :
    (dictGet (handleDetermineCall agent inquiry) "Relevant" = some (PyVal.s "Yes")
      ↔ ∃ kw ∈ relevanceKeywords agent, pyContains (pyLower inquiry) kw = true)
    ∧ (dictGet (handleDetermineCall agent inquiry) "Relevant" = some (PyVal.s "Yes") →
        dictGet (handleDetermineCall agent inquiry) "Strength" = some (PyVal.n 8)
        ∧ dictGet (handleDetermineCall agent inquiry) "Claim" = some (PyVal.s "All"))
    ∧ (dictGet (handleDetermineCall agent inquiry) "Relevant" = some (PyVal.s "No") →
        dictGet (handleDetermineCall agent inquiry) "Strength" = some (PyVal.n 3)
        ∧ dictGet (handleDetermineCall agent inquiry) "Claim" = some (PyVal.s "Partial"))
    ∧ (dictGet (handleDetermineCall agent inquiry) "Relevant" = some (PyVal.s "Yes")
        ∨ dictGet (handleDetermineCall agent inquiry) "Relevant" = some (PyVal.s "No"))
    ∧ (agent ∉ ["product-manager", "architect", "project-manager", "engineer", "qa"] →
        relevanceKeywords agent = []
        ∧ dictGet (handleDetermineCall agent inquiry) "Relevant" = some (PyVal.s "No")) := by
  refine ⟨?_, ?_, ?_, ?_, ?_⟩
  · rw [determineRelevant_eq]
    cases hc : (relevanceKeywords agent).any (fun kw => pyContains (pyLower inquiry) kw) with
    | true =>
      constructor
      · intro _
        simpa using List.any_eq_true.mp hc
      · intro _
        simp
    | false =>
      constructor
      · intro h
        simp at h
      · rintro ⟨kw, hmem, hkw⟩
        rw [List.any_eq_false] at hc
        exact absurd hkw (by simpa using hc kw hmem)
  · rw [determineRelevant_eq, determineStrength_eq, determineClaimField_eq]
    cases hc : (relevanceKeywords agent).any (fun kw => pyContains (pyLower inquiry) kw) with
    | true => intro _; exact ⟨rfl, rfl⟩
    | false => intro h; simp at h
  · rw [determineRelevant_eq, determineStrength_eq, determineClaimField_eq]
    cases hc : (relevanceKeywords agent).any (fun kw => pyContains (pyLower inquiry) kw) with
    | true => intro h; simp at h
    | false => intro _; exact ⟨rfl, rfl⟩
  · rw [determineRelevant_eq]
    cases (relevanceKeywords agent).any (fun kw => pyContains (pyLower inquiry) kw) with
    | true => exact Or.inl rfl
    | false => exact Or.inr rfl
  · intro h
    simp only [List.mem_cons, List.not_mem_nil, not_or] at h
    obtain ⟨h1, h2, h3, h4, h5, -⟩ := h
    have hk : relevanceKeywords agent = [] := by
      simp [relevanceKeywords, h1, h2, h3, h4, h5]
    refine ⟨hk, ?_⟩
    rw [determineRelevant_eq, hk]
    simp

/-- C2 witness: the claim theorem applied at the concrete agent "boss"
(outside the five keyword-bearing roles) and a concrete inquiry,
discharging the membership hypothesis. -/
theorem determine_call_relevance_spec_witness :
    relevanceKeywords "boss" = []
    ∧ dictGet (handleDetermineCall "boss" "test the build") "Relevant" = some (PyVal.s "No") :=
  (determine_call_relevance_spec "boss" "test the build").2.2.2.2 (by decide)

/-- C3: `delegate_to_agent` never propagates a failure: with no live
bridge, or when the bridge call reports failure or raises, it returns
the simulated response for the target agent and mode; in every case its
result is either the bridge's successful response dict or the simulated
response. -/
theorem delegate_to_agent_fallback_spec (b : Bridge) (t0 : List DelegationRecord)
    (fromAgent toAgent inquiry mode : String) :
    ((delegateToAgent none t0 fromAgent toAgent inquiry mode).1
        = simulateAgentResponse toAgent inquiry mode)
    ∧ ((delegateToAgent (some b) t0 fromAgent toAgent inquiry mode).1
        = match b toAgent inquiry mode with
          | .success resp => resp
          | .failure _ => simulateAgentResponse toAgent inquiry mode
          | .raised _ => simulateAgentResponse toAgent inquiry mode)
    ∧ (∀ e, b toAgent inquiry mode = .failure e →
        (delegateToAgent (some b) t0 fromAgent toAgent inquiry mode).1
          = simulateAgentResponse toAgent inquiry mode)
    ∧ (∀ e, b toAgent inquiry mode = .raised e →
        (delegateToAgent (some b) t0 fromAgent toAgent inquiry mode).1
          = simulateAgentResponse toAgent inquiry mode) := by
  refine ⟨rfl, ?_, ?_, ?_⟩
  · cases hb : b toAgent inquiry mode <;> simp [delegateToAgent, hb]
  · intro e he; simp [delegateToAgent, he]
  · intro e he; simp [delegateToAgent, he]

/-- A bridge whose every call reports failure. -/
def failingBridge : Bridge := fun _ _ _ => .failure "agent offline"

/-- A bridge whose every call raises an exception. -/
def raisingBridge : Bridge := fun _ _ _ => .raised "connection refused"

/-- C3 witness: the claim theorem applied at concrete bridges that
report failure and that raise, discharging both hypotheses. -/
theorem delegate_to_agent_fallback_spec_witness :
    ((delegateToAgent (some failingBridge) [] "boss" "product-manager" "an inquiry"
        "Determine").1 = simulateAgentResponse "product-manager" "an inquiry" "Determine")
    ∧ ((delegateToAgent (some raisingBridge) [] "boss" "qa" "an inquiry" "Fulfill").1
        = simulateAgentResponse "qa" "an inquiry" "Fulfill") :=
  ⟨(delegate_to_agent_fallback_spec failingBridge [] "boss" "product-manager" "an inquiry"
      "Determine").2.2.1 "agent offline" rfl,
   (delegate_to_agent_fallback_spec raisingBridge [] "boss" "qa" "an inquiry"
      "Fulfill").2.2.2 "connection refused" rfl⟩

/-- C9: `execute_workflow_delegation` always returns `success = True`
with an otrace whose first element is "boss", for every bridge (live or
simulation) and every input; and with a bridge whose every Determine
answer is "No" the otrace is exactly `["boss"]` and
`delegation_results` is empty, still reported as success. -/
theorem execute_workflow_delegation_success_spec :
    (∀ (bridge : Option Bridge) (t0 : List DelegationRecord) (wt ur sid : String),
        (executeWorkflowDelegation bridge t0 wt ur sid).success = true
        ∧ ∃ rest, (executeWorkflowDelegation bridge t0 wt ur sid).otrace = "boss" :: rest)
    ∧ (executeWorkflowDelegation (some allNoBridge) [] "azure_landing_zone"
        "Create Azure Landing Zone with hub and spoke model with 3 regions" "sid").otrace
        = ["boss"]
    ∧ (executeWorkflowDelegation (some allNoBridge) [] "azure_landing_zone"
        "Create Azure Landing Zone with hub and spoke model with 3 regions"
        "sid").delegationResults = []
    ∧ (executeWorkflowDelegation (some allNoBridge) [] "azure_landing_zone"
        "Create Azure Landing Zone with hub and spoke model with 3 regions"
        "sid").success = true := by
  refine ⟨fun bridge t0 wt ur sid => ⟨rfl, ?_⟩, rfl, rfl, rfl⟩
  simp only [executeWorkflowDelegation]
  obtain ⟨r1, h1⟩ := wdPhase_otrace_pre bridge ([], ["boss"], t0) "boss" "product-manager"
    ("Create Product Requirements Document for " ++ wt ++ ": " ++ ur) rfl
  obtain ⟨r2, h2⟩ := wdPhase_otrace_pre bridge _ "product-manager" "architect"
    ("Design system architecture for " ++ wt ++ " based on requirements: " ++ ur) h1
  obtain ⟨r3, h3⟩ := wdPhase_otrace_pre bridge _ "architect" "project-manager"
    ("Create project plan for " ++ wt ++ " implementation") h2
  obtain ⟨r4, h4⟩ := wdPhase_otrace_pre bridge _ "project-manager" "engineer"
    ("Implement " ++ wt ++ " solution according to architecture and requirements") h3
  obtain ⟨r5, h5⟩ := wdPhase_otrace_pre bridge _ "engineer" "qa"
    ("Test and validate " ++ wt ++ " implementation for quality and compliance") h4
  exact ⟨r5, h5⟩

/-! ## Filesystem model for the cloud_infrastructure_provider tools

Directories and files live in an explicit state; the primitive
operations are parameters that may fail, modelling `OSError` and
friends raised by `os.makedirs` / `open` / `read`.  `realFS` is the
failure-free semantics. -/

/-- Mutable filesystem state: created directories and written files
(newest first, so a later write shadows an earlier one). -/
structure FileSys where
  dirs : List String
  files : List (String × String)
deriving DecidableEq

/-- The empty filesystem. -/
def emptyFS : FileSys := ⟨[], []⟩

/-- Association lookup on string pairs. -/
def lookupStr : List (String × String) → String → Option String
  | [], _ => none
  | (k, v) :: t, key => if k == key then some v else lookupStr t key

/-- Fallible filesystem primitives; an `Except.error` is a raised
exception carrying `str(e)`. -/
structure FSOps where
  makedirs : FileSys → String → Except String FileSys
  writeFile : FileSys → String → String → Except String FileSys
  pathExists : FileSys → String → Bool
  readFile : FileSys → String → Except String String

/-- The failure-free filesystem semantics. -/
def realFS : FSOps where
  makedirs fs d := .ok ⟨d :: fs.dirs, fs.files⟩
  writeFile fs p c := .ok ⟨fs.dirs, (p, c) :: fs.files⟩
  pathExists fs p := (lookupStr fs.files p).isSome
  readFile fs p :=
    match lookupStr fs.files p with
    | some c => .ok c
    | none => .error "No such file or directory"

/-- Tool arguments (`args: Dict[str, Any]`): the two builder tools only
read string-valued parameters from it. -/
abbrev PyArgs := List (String × String)

/-- Python `args.get(key, default)`. -/
def argGetD (args : PyArgs) (key dflt : String) : String :=
  match lookupStr args key with
  | some v => v
  | none => dflt

/-- POSIX `os.path.join` on two components, as the tools use it: an
absolute second component replaces the path, otherwise a slash is
inserted unless one is already there. -/
def pyPathJoin (a b : String) : String :=
  if pyStartsWith b "/" then b
  else if a == "" || pyEndsWith a "/" then a ++ b
  else a ++ "/" ++ b

/-! ## DesignDocumentCreator (design_document_creator.py) -/

/-- `DesignDocumentCreator._generate_design_document`: the full
markdown template, with the `datetime.now` timestamp passed in as the
parameter `ts`. -/
def generateDesignDocument (ts projectName projectDetails : String) : String :=
  "# Infrastructure Design Document: "
  ++ projectName
  ++ "\n\n**Document Version:** 1.0  \n**Created:** "
  ++ ts
  ++ "  \n**Project Name:** "
  ++ projectName
  ++ "  \n**Architect:** TBD  \n**Review Status:** Draft  \n\n## 1. Executive Summary\n\nThis document out"
  ++ "lines the comprehensive infrastructure design for the "
  ++ projectName
  ++ " project. The design focuses on "
  ++ pyLower projectDetails
  ++ " with emphasis on scalability, security, and operational excellence.\n\n### 1.1 Project Overview\nTh"
  ++ "e "
  ++ projectName
  ++ " infrastructure will provide a robust, secure, and scalable foundation for cloud operations. This de"
  ++ "sign incorporates industry best practices and follows the Well-Architected Framework principles.\n\n"
  ++ "### 1.2 Key Design Principles\n- **Security First:** Zero-trust architecture with defense-in-depth\n"
  ++ "- **High Availability:** Multi-zone deployment with automatic failover\n- **Scalability:** Auto-scal"
  ++ "ing capabilities for varying workloads\n- **Cost Optimization:** Right-sizing resources with monitor"
  ++ "ing\n- **Operational Excellence:** Infrastructure as Code and automation\n\n## 2. Architecture Overv"
  ++ "iew\n\n### 2.1 High-Level Architecture\nThe "
  ++ projectName
  ++ " infrastructure consists of the following major components:\n\n- **Compute Layer:** Virtual machines"
  ++ " and container orchestration\n- **Network Layer:** Virtual networks, subnets, and security groups\n-"
  ++ " **Storage Layer:** Block storage, object storage, and backup systems\n- **Database Layer:** Managed"
  ++ " database services with replication\n- **Security Layer:** Identity management, encryption, and moni"
  ++ "toring\n- **Management Layer:** Monitoring, logging, and automation tools\n\n### 2.2 Technology Stac"
  ++ "k\n- **Infrastructure as Code:** Terraform for resource provisioning\n- **Configuration Management:*"
  ++ "* Ansible for server configuration\n- **Container Platform:** Docker with orchestration capabilities"
  ++ "\n- **Monitoring:** Comprehensive logging and metrics collection\n- **Security:** End-to-end encrypt"
  ++ "ion and access controls\n\n## 3. Network Architecture\n\n### 3.1 Network Topology\n```\nInternet Gat"
  ++ "eway\n    |\nLoad Balancer (Public Subnet)\n    |\nApplication Tier (Private Subnet)\n    |\nDatabas"
  ++ "e Tier (Private Subnet)\n```\n\n### 3.2 Network Segmentation\n- **Public Subnet:** Load balancers an"
  ++ "d bastion hosts\n- **Private Subnet:** Application servers and internal services  \n- **Database Sub"
  ++ "net:** Database servers with restricted access\n- **Management Subnet:** Monitoring and administrati"
  ++ "ve tools\n\n### 3.3 Security Groups and NACLs\n- Principle of least privilege access\n- Layer 4 and "
  ++ "Layer 7 filtering\n- Regular security group audits\n- Automated compliance checks\n\n## 4. Compute I"
  ++ "nfrastructure\n\n### 4.1 Virtual Machine Specifications\n- **Web Tier:** Auto-scaling group of appli"
  ++ "cation servers\n- **Application Tier:** Microservices with container orchestration\n- **Database Tie"
  ++ "r:** High-availability database cluster\n- **Management Tier:** Monitoring and logging infrastructur"
  ++ "e\n\n### 4.2 Auto-Scaling Configuration\n- CPU utilization thresholds\n- Memory utilization monitori"
  ++ "ng\n- Network I/O metrics\n- Custom application metrics\n\n### 4.3 Load Balancing\n- Application Loa"
  ++ "d Balancer for HTTP/HTTPS traffic\n- Network Load Balancer for TCP traffic\n- Health checks and auto"
  ++ "matic failover\n- SSL termination and certificate management\n\n## 5. Storage Architecture\n\n### 5."
  ++ "1 Storage Types\n- **Block Storage:** High-performance SSD for databases\n- **Object Storage:** Web "
  ++ "assets and backup storage\n- **File Storage:** Shared file systems for applications\n- **Backup Stor"
  ++ "age:** Long-term retention and disaster recovery\n\n### 5.2 Data Protection\n- Automated backup sche"
  ++ "dules\n- Point-in-time recovery capabilities\n- Cross-region replication\n- Encryption at rest and i"
  ++ "n transit\n\n## 6. Database Design\n\n### 6.1 Database Architecture\n- Primary database with read re"
  ++ "plicas\n- Automated backup and point-in-time recovery\n- Connection pooling and performance optimiza"
  ++ "tion\n- Database monitoring and alerting\n\n### 6.2 High Availability\n- Multi-zone deployment\n- Au"
  ++ "tomatic failover mechanisms\n- Database clustering for critical workloads\n- Regular disaster recove"
  ++ "ry testing\n\n## 7. Security Framework\n\n### 7.1 Identity and Access Management\n- Role-based acces"
  ++ "s control (RBAC)\n- Multi-factor authentication (MFA)\n- Service accounts with minimal privileges\n-"
  ++ " Regular access reviews and audits\n\n### 7.2 Network Security\n- Web Application Firewall (WAF)\n- "
  ++ "DDoS protection and mitigation\n- VPN access for administrative tasks\n- Network intrusion detection"
  ++ "\n\n### 7.3 Data Security\n- Encryption at rest using managed keys\n- Encryption in transit with TLS"
  ++ " 1.3\n- Database encryption and key rotation\n- Secure backup and recovery procedures\n\n## 8. Monit"
  ++ "oring and Observability\n\n### 8.1 Monitoring Strategy\n- Infrastructure metrics and alerting\n- App"
  ++ "lication performance monitoring\n- Log aggregation and analysis\n- Security event monitoring\n\n### "
  ++ "8.2 Key Metrics\n- System resource utilization\n- Application response times\n- Error rates and avai"
  ++ "lability\n- Security events and anomalies\n\n### 8.3 Alerting and Notification\n- Critical alert esc"
  ++ "alation procedures\n- On-call rotation and support tiers\n- Automated remediation where possible\n- "
  ++ "Post-incident review processes\n\n## 9. Disaster Recovery\n\n### 9.1 Backup Strategy\n- Automated da"
  ++ "ily backups\n- Cross-region backup replication\n- Regular backup restoration testing\n- Long-term re"
  ++ "tention policies\n\n### 9.2 Recovery Procedures\n- Recovery Time Objective (RTO): 4 hours\n- Recover"
  ++ "y Point Objective (RPO): 1 hour\n- Automated failover procedures\n- Regular disaster recovery drills"
  ++ "\n\n## 10. Compliance and Governance\n\n### 10.1 Compliance Requirements\n- Data protection regulati"
  ++ "ons\n- Industry security standards\n- Internal governance policies\n- Regular compliance audits\n\n#"
  ++ "## 10.2 Documentation and Change Management\n- Infrastructure documentation maintenance\n- Change ap"
  ++ "proval processes\n- Version control for all configurations\n- Regular architecture reviews\n\n## 11."
  ++ " Cost Optimization\n\n### 11.1 Cost Management\n- Resource tagging and allocation\n- Regular cost re"
  ++ "views and optimization\n- Right-sizing recommendations\n- Reserved instance planning\n\n### 11.2 Mon"
  ++ "itoring and Alerts\n- Budget alerts and notifications\n- Cost anomaly detection\n- Resource utilizat"
  ++ "ion optimization\n- Regular cost optimization reviews\n\n## 12. Implementation Roadmap\n\n### 12.1 P"
  ++ "hase 1: Foundation (Weeks 1-4)\n- Network infrastructure setup\n- Security baseline implementation\n"
  ++ "- Basic monitoring and logging\n\n### 12.2 Phase 2: Core Services (Weeks 5-8)\n- Compute infrastruct"
  ++ "ure deployment\n- Database services implementation\n- Application deployment automation\n\n### 12.3 "
  ++ "Phase 3: Advanced Features (Weeks 9-12)\n- Advanced monitoring and alerting\n- Disaster recovery imp"
  ++ "lementation\n- Performance optimization\n\n## 13. Risk Assessment\n\n### 13.1 Technical Risks\n- Sin"
  ++ "gle points of failure\n- Performance bottlenecks\n- Security vulnerabilities\n- Scalability limitati"
  ++ "ons\n\n### 13.2 Mitigation Strategies\n- Redundancy and failover mechanisms\n- Regular performance t"
  ++ "esting\n- Security audits and penetration testing\n- Capacity planning and monitoring\n\n## 14. Conc"
  ++ "lusion\n\nThis design document provides a comprehensive foundation for the "
  ++ projectName
  ++ " infrastructure. The architecture ensures high availability, security, and scalability while maintai"
  ++ "ning operational efficiency and cost-effectiveness.\n\n### 14.1 Next Steps\n1. Review and approve de"
  ++ "sign document\n2. Begin infrastructure implementation\n3. Establish monitoring and alerting\n4. Cond"
  ++ "uct security assessment\n5. Plan disaster recovery testing\n\n### 14.2 Success Criteria\n- 99.9% upt"
  ++ "ime achievement\n- Sub-second response times\n- Zero security incidents\n- Successful disaster recov"
  ++ "ery testing\n- Budget adherence\n\n---\n\n**Document Status:** Draft  \n**Review Required:** Yes  \n"
  ++ "**Approval Required:** Yes  \n**Next Review Date:** TBD\n\n*This design document serves as the bluep"
  ++ "rint for "
  ++ projectName
  ++ " infrastructure implementation. Regular updates will ensure alignment with business requirements and"
  ++ " technology evolution.*\n"

/-- Body of `DesignDocumentCreator.invoke` inside its `try`: an
`Except.error` is an uncaught exception together with the filesystem
state at the point it was raised.  The logging calls are no-ops in the
model. -/
def ddcBody (ops : FSOps) (args : PyArgs) (fs : FileSys) (ts : String) :
    Except (String × FileSys) (String × FileSys) :=
  let projectName := argGetD args "project_name" ""
  if projectName == "" then .ok ("Error: project_name parameter is required", fs)
  else
    let docsDir := pyPathJoin (pyPathJoin "output" projectName) "docs"
    match ops.makedirs fs docsDir with
    | .error e => .error (e, fs)
    | .ok fs1 =>
      let projectDetails := argGetD args "project_details" "Cloud infrastructure setup"
      let designContent := generateDesignDocument ts projectName projectDetails
      let designPath := pyPathJoin docsDir "design.md"
      match ops.writeFile fs1 designPath designContent with
      | .error e => .error (e, fs1)
      | .ok fs2 => .ok ("Design document successfully created at " ++ designPath, fs2)

/-- `DesignDocumentCreator.invoke`: the blanket `except Exception`
turns any raised exception into an error string. -/
def invokeDDC (ops : FSOps) (args : PyArgs) (fs : FileSys) (ts : String) :
    String × FileSys :=
  match ddcBody ops args fs ts with
  | .ok r => r
  | .error (e, fsE) => ("Error: Failed to create design document - " ++ e, fsE)

/-! ## TerraformBuilder (terraform_builder.py) -/

/-- `TerraformBuilder._detect_cloud_provider`. -/
def detectCloudProvider (content : String) : String :=
  let contentLower := pyLower content
  if pyContains contentLower "aws" || pyContains contentLower "amazon" then "aws"
  else if pyContains contentLower "azure" || pyContains contentLower "microsoft" then "azure"
  else if pyContains contentLower "gcp" || pyContains contentLower "google cloud" then "gcp"
  else "unknown"

/-- `TerraformBuilder._parse_design_requirements`, modelled for the
`"cloud_provider"` entry, the only one a checked claim inspects.  The
remaining eight entries (region, resources, networking, security,
monitoring, backup, scaling, compliance: regex and keyword extractors
over the same content) are carried as the uninterpreted tail
`extraReq`. -/
def parseDesignRequirements (extraReq : PyDict) (content : String) : PyDict :=
  ("cloud_provider", PyVal.s (detectCloudProvider content)) :: extraReq

/-- The hard-coded default requirements dict used by
`TerraformBuilder.invoke` when no design document exists (note: it has
no `"cloud_provider"` key). -/
def defaultRequirements : PyDict :=
  [("services", .l [.s "nginx"]),
   ("databases", .l []),
   ("load_balancers", .l []),
   ("monitoring", .b false),
   ("ssl", .b false),
   ("backup", .b false),
   ("security", .l []),
   ("networking", .d [("vpc", .b true)]),
   ("scaling", .d [("auto_scaling", .b false)])]

/-- Per-provider content builders for one generated file.  The bodies
of `_create_azure_main_tf` and its fourteen siblings are hundreds of
lines of literal Terraform/markdown text none of the checked claims
inspect, so they are parameters of the model. -/
structure ProviderContentFns where
  azure : String → PyDict → String
  aws : String → PyDict → String
  gcp : String → PyDict → String

/-- The dispatch shared verbatim by `_create_main_tf`,
`_create_variables_tf`, `_create_outputs_tf`, `_create_terraform_tfvars`
and `_create_readme`: select the builder by
`requirements.get("cloud_provider", "azure")`, defaulting to the Azure
builder for an unrecognised provider. -/
def providerDispatch (fns : ProviderContentFns) (projectName : String) (req : PyDict) : String :=
  let cloudProvider := match dictGet req "cloud_provider" with
    | some (.s p) => p
    | _ => "azure"
  if cloudProvider == "azure" then fns.azure projectName req
  else if cloudProvider == "aws" then fns.aws projectName req
  else if cloudProvider == "gcp" then fns.gcp projectName req
  else fns.azure projectName req

/-- The five files `TerraformBuilder.invoke` writes, each with its
per-provider builders. -/
structure TBGenerators where
  mainTf : ProviderContentFns
  variablesTf : ProviderContentFns
  outputsTf : ProviderContentFns
  tfvars : ProviderContentFns
  readme : ProviderContentFns

/-- Body of `TerraformBuilder.invoke` inside its `try`. -/
def tbBody (ops : FSOps) (gen : TBGenerators) (extraReq : PyDict) (args : PyArgs)
    (fs : FileSys) : Except (String × FileSys) (String × FileSys) :=
  let projectName := argGetD args "project_name" ""
  let outputDir := argGetD args "output_dir" ("output/" ++ projectName)
  if projectName == "" then .ok ("Error: project_name parameter is required", fs)
  else
    let designPath := pyPathJoin (pyPathJoin outputDir "docs") "design.md"
    let reqStep : Except String PyDict :=
      if ops.pathExists fs designPath then
        match ops.readFile fs designPath with
        | .error e => .error e
        | .ok content => .ok (parseDesignRequirements extraReq content)
      else .ok defaultRequirements
    match reqStep with
    | .error e => .error (e, fs)
    | .ok requirements =>
      let terraformDir := pyPathJoin outputDir "terraform"
      match ops.makedirs fs terraformDir with
      | .error e => .error (e, fs)
      | .ok fs1 =>
        match ops.writeFile fs1 (pyPathJoin terraformDir "main.tf")
            (providerDispatch gen.mainTf projectName requirements) with
        | .error e => .error (e, fs1)
        | .ok fs2 =>
          match ops.writeFile fs2 (pyPathJoin terraformDir "variables.tf")
              (providerDispatch gen.variablesTf projectName requirements) with
          | .error e => .error (e, fs2)
          | .ok fs3 =>
            match ops.writeFile fs3 (pyPathJoin terraformDir "outputs.tf")
                (providerDispatch gen.outputsTf projectName requirements) with
            | .error e => .error (e, fs3)
            | .ok fs4 =>
              match ops.writeFile fs4 (pyPathJoin terraformDir "terraform.tfvars")
                  (providerDispatch gen.tfvars projectName requirements) with
              | .error e => .error (e, fs4)
              | .ok fs5 =>
                match ops.writeFile fs5 (pyPathJoin terraformDir "README.md")
                    (providerDispatch gen.readme projectName requirements) with
                | .error e => .error (e, fs5)
                | .ok fs6 =>
                  .ok ("Terraform infrastructure successfully generated at " ++ terraformDir, fs6)

/-- `TerraformBuilder.invoke`: the blanket `except Exception` turns any
raised exception into an error string. -/
def invokeTB (ops : FSOps) (gen : TBGenerators) (extraReq : PyDict) (args : PyArgs)
    (fs : FileSys) : String × FileSys :=
  match tbBody ops gen extraReq args fs with
  | .ok r => r
  | .error (e, fsE) => ("Error: Failed to generate Terraform infrastructure - " ++ e, fsE)

/-! ## WorkflowEngine.execute_workflow (workflow_engine.py) -/

/-- `WorkflowEngine.execute_workflow`, parameterised by the
`aaosa_enabled` flag and by the delegation-engine call, which may raise
(`Except.error` carries `str(e)`).  Logging and the `active_sessions`
bookkeeping are no-ops in the model; the `workflow_result` echo of the
full engine dict in the success branch is omitted (no claim reads it);
the `session_id` default derived from the wall clock is taken as
given. -/
def executeWorkflow (aaosaEnabled : Bool)
    (delegCall : String → String → String → Except String WorkflowResult)
    (workflowType userInput sessionId : String) : PyDict :=
  if !aaosaEnabled then
    [("success", .b true), ("session_id", .s sessionId), ("workflow_type", .s workflowType),
     ("otrace", .l [.s "boss"]), ("mode", .s "single_agent_fallback"),
     ("message", .s "Executed in single-agent mode - AAOSA delegation not available")]
  else
    match delegCall workflowType userInput sessionId with
    | .ok wr =>
      [("success", .b true), ("session_id", .s sessionId), ("workflow_type", .s workflowType),
       ("otrace", .l (wr.otrace.map PyVal.s)),
       ("delegation_results", .l (wr.delegationResults.map PyVal.d)),
       ("mode", .s "multi_agent_aaosa"),
       ("total_delegations", .n wr.delegationTrace.length)]
    | .error e =>
      [("success", .b false), ("session_id", .s sessionId), ("error", .s e),
       ("mode", .s "error")]

/-! ## Lemmas about paths and the generated document -/

theorem strExt {a b : String} (h : a.data = b.data) : a = b := by
  cases a; cases b; cases h; rfl

theorem strAppend_assoc (a b c : String) : (a ++ b) ++ c = a ++ (b ++ c) := by
  apply strExt
  simp [strData_append]

theorem strAppend_right_ne_empty (a b : String) (hb : b.data ≠ []) :
    ((a ++ b) == "") = false := by
  apply beq_eq_false_iff_ne.mpr
  intro hcontra
  have hdata := congrArg String.data hcontra
  rw [strData_append] at hdata
  have : b.data = [] := by
    cases hd : a.data <;> rw [hd] at hdata <;> simp_all
  exact hb this

theorem pyEndsWith_append_right (a b : String) (hb : b.data ≠ []) :
    pyEndsWith (a ++ b) "/" = pyEndsWith b "/" := by
  unfold pyEndsWith
  rw [strData_append, List.reverse_append]
  obtain ⟨c, l, hcl⟩ : ∃ c l, b.data.reverse = c :: l := by
    cases hrev : b.data.reverse with
    | nil => exact absurd (by simpa using congrArg List.reverse hrev) hb
    | cons c l => exact ⟨c, l, rfl⟩
  rw [hcl]
  simp [listPre]

theorem pyPathJoin_rel (a b : String) (hb : pyStartsWith b "/" = false)
    (ha : (a == "") = false) (hae : pyEndsWith a "/" = false) :
    pyPathJoin a b = a ++ "/" ++ b := by
  simp [pyPathJoin, hb, ha, hae]

theorem strData_ne_empty_of_beq {a : String} (h : (a == "") = false) : a.data ≠ [] := by
  intro hd
  exact absurd (strExt (b := "") (by simpa using hd)) (beq_eq_false_iff_ne.mp h)

theorem pyStartsWith_of_pre {p pre : String} (rest : String)
    (h : pyStartsWith p pre = true) : pyStartsWith (p ++ rest) pre = true := by
  simpa [pyStartsWith, strData_append] using listPre_append rest.data h

theorem docsDir_eq (pn : String) (h1 : (pn == "") = false)
    (h2 : pyStartsWith pn "/" = false) (h3 : pyEndsWith pn "/" = false) :
    pyPathJoin (pyPathJoin "output" pn) "docs" = ("output/" ++ pn) ++ "/docs" := by
  have hstep1 : pyPathJoin "output" pn = "output/" ++ pn := by
    rw [pyPathJoin_rel "output" pn h2 (by decide) (by decide)]
    rw [strAppend_assoc]
    rfl
  rw [hstep1]
  have hne : pn.data ≠ [] := strData_ne_empty_of_beq h1
  rw [pyPathJoin_rel ("output/" ++ pn) "docs" (by decide)
    (strAppend_right_ne_empty _ _ hne)
    (by rw [pyEndsWith_append_right _ _ hne]; exact h3)]
  rw [strAppend_assoc]
  rfl

theorem designPath_eq (pn : String) :
    pyPathJoin (("output/" ++ pn) ++ "/docs") "design.md"
      = ("output/" ++ pn) ++ "/docs/design.md" := by
  rw [pyPathJoin_rel (("output/" ++ pn) ++ "/docs") "design.md" (by decide)
    (strAppend_right_ne_empty _ _ (by decide))
    (by rw [pyEndsWith_append_right _ _ (show ("/docs" : String).data ≠ [] by decide)]; decide)]
  rw [strAppend_assoc, strAppend_assoc]
  rfl

theorem generateDesignDocument_contains (ts pn pd : String) :
    pyContains (generateDesignDocument ts pn pd) pn = true := by
  unfold pyContains generateDesignDocument
  simp only [strData_append, List.append_assoc]
  exact listSub_middle pn.data _ _

theorem ddcBody_ok_shape (ops : FSOps) (args : PyArgs) (fs : FileSys) (ts : String)
    (r : String × FileSys) (h : ddcBody ops args fs ts = .ok r) :
    r.1 = "Error: project_name parameter is required"
    ∨ ∃ p, r.1 = "Design document successfully created at " ++ p := by
  unfold ddcBody at h
  dsimp only at h
  split at h
  · exact Or.inl (by cases h; rfl)
  · split at h
    · exact absurd h (by simp)
    · split at h
      · exact absurd h (by simp)
      · exact Or.inr ⟨_, by cases h; rfl⟩

theorem tbBody_ok_shape (ops : FSOps) (gen : TBGenerators) (extraReq : PyDict)
    (args : PyArgs) (fs : FileSys) (r : String × FileSys)
    (h : tbBody ops gen extraReq args fs = .ok r) :
    r.1 = "Error: project_name parameter is required"
    ∨ ∃ p, r.1 = "Terraform infrastructure successfully generated at " ++ p := by
  unfold tbBody at h
  dsimp only at h
  split at h
  · exact Or.inl (by cases h; rfl)
  · repeat' split at h
    all_goals cases h
    exact Or.inr ⟨_, rfl⟩

theorem invokeDDC_run (pn pd ts : String) (fs : FileSys)
    (h1 : (pn == "") = false)
    (h2 : pyStartsWith pn "/" = false) (h3 : pyEndsWith pn "/" = false) :
    invokeDDC realFS [("project_name", pn), ("project_details", pd)] fs ts
      = ("Design document successfully created at " ++ (("output/" ++ pn) ++ "/docs/design.md"),
         ⟨(("output/" ++ pn) ++ "/docs") :: fs.dirs,
          ((("output/" ++ pn) ++ "/docs/design.md"), generateDesignDocument ts pn pd) :: fs.files⟩) := by
  simp only [invokeDDC, ddcBody, argGetD, lookupStr]
  simp only [show ("project_name" == "project_name") = true from rfl,
    show ("project_name" == "project_details") = false from rfl, if_true, if_false,
    docsDir_eq pn h1 h2 h3, h1, Bool.false_eq_true, realFS]
  rw [designPath_eq pn]
  rfl

/-! ## Claim theorems for the infrastructure-provider tools -/

/-- Provider content builders that all return the empty string, used as
concrete instantiations. -/
def constContentFns : ProviderContentFns := ⟨fun _ _ => "", fun _ _ => "", fun _ _ => ""⟩

/-- Generators built from `constContentFns` for every file. -/
def constGenerators : TBGenerators :=
  ⟨constContentFns, constContentFns, constContentFns, constContentFns, constContentFns⟩

/-- Filesystem primitives that always raise, modelling a read-only or
broken filesystem. -/
def failingFS : FSOps where
  makedirs _ _ := .error "Permission denied"
  writeFile _ _ _ := .error "Permission denied"
  pathExists _ _ := false
  readFile _ _ := .error "Permission denied"

/-- C4: every exception raised inside `DesignDocumentCreator.invoke` or
`TerraformBuilder.invoke` is caught and turned into a returned string
beginning with "Error:" (the result is always either such an error
string or the success message), and every exception raised inside the
`try` of `WorkflowEngine.execute_workflow` is caught and turned into a
returned dict with `success` False and an `error` string; none of the
three propagates an exception (each model function returns a plain
value for every filesystem / delegation-engine behaviour). -/
theorem broad_exception_handling_spec :
    (∀ (ops : FSOps) (args : PyArgs) (fs : FileSys) (ts : String),
        pyStartsWith (invokeDDC ops args fs ts).1 "Error:" = true
        ∨ ∃ p, (invokeDDC ops args fs ts).1 = "Design document successfully created at " ++ p)
    ∧ (∀ ops gen extraReq args fs,
        pyStartsWith (invokeTB ops gen extraReq args fs).1 "Error:" = true
        ∨ ∃ p, (invokeTB ops gen extraReq args fs).1
            = "Terraform infrastructure successfully generated at " ++ p)
    ∧ (∀ ops args fs ts e fsE, ddcBody ops args fs ts = .error (e, fsE) →
        (invokeDDC ops args fs ts).1 = "Error: Failed to create design document - " ++ e)
    ∧ (∀ ops gen extraReq args fs e fsE, tbBody ops gen extraReq args fs = .error (e, fsE) →
        (invokeTB ops gen extraReq args fs).1
          = "Error: Failed to generate Terraform infrastructure - " ++ e)
    ∧ (∀ dc wt ui sid e, dc wt ui sid = Except.error e →
        executeWorkflow true dc wt ui sid
          = [("success", PyVal.b false), ("session_id", PyVal.s sid),
             ("error", PyVal.s e), ("mode", PyVal.s "error")])
    ∧ (∀ (en : Bool) dc wt ui sid,
        dictGet (executeWorkflow en dc wt ui sid) "success" = some (PyVal.b false) →
        ∃ e, dictGet (executeWorkflow en dc wt ui sid) "error" = some (PyVal.s e)) := by
  refine ⟨?_, ?_, ?_, ?_, ?_, ?_⟩
  · intro ops args fs ts
    cases hb : ddcBody ops args fs ts with
    | ok r =>
      rcases ddcBody_ok_shape ops args fs ts r hb with hsh | ⟨p, hsh⟩
      · exact Or.inl (by simp only [invokeDDC, hb]; rw [hsh]; decide)
      · exact Or.inr ⟨p, by simp only [invokeDDC, hb]; exact hsh⟩
    | error pr =>
      obtain ⟨e, fsE⟩ := pr
      refine Or.inl ?_
      simp only [invokeDDC, hb]
      exact pyStartsWith_of_pre e (by decide)
  · intro ops gen extraReq args fs
    cases hb : tbBody ops gen extraReq args fs with
    | ok r =>
      rcases tbBody_ok_shape ops gen extraReq args fs r hb with hsh | ⟨p, hsh⟩
      · exact Or.inl (by simp only [invokeTB, hb]; rw [hsh]; decide)
      · exact Or.inr ⟨p, by simp only [invokeTB, hb]; exact hsh⟩
    | error pr =>
      obtain ⟨e, fsE⟩ := pr
      refine Or.inl ?_
      simp only [invokeTB, hb]
      exact pyStartsWith_of_pre e (by decide)
  · intro ops args fs ts e fsE h
    simp only [invokeDDC, h]
  · intro ops gen extraReq args fs e fsE h
    simp only [invokeTB, h]
  · intro dc wt ui sid e h
    simp only [executeWorkflow, h]
    rfl
  · intro en dc wt ui sid h
    cases en with
    | false => simp [executeWorkflow, dictGet] at h
    | true =>
      cases hdc : dc wt ui sid with
      | ok wr =>
        rw [show executeWorkflow true dc wt ui sid
          = [("success", PyVal.b true), ("session_id", PyVal.s sid),
             ("workflow_type", PyVal.s wt),
             ("otrace", PyVal.l (wr.otrace.map PyVal.s)),
             ("delegation_results", PyVal.l (wr.delegationResults.map PyVal.d)),
             ("mode", PyVal.s "multi_agent_aaosa"),
             ("total_delegations", PyVal.n wr.delegationTrace.length)]
          from by simp only [executeWorkflow, hdc]; rfl] at h
        simp [dictGet] at h
      | error e =>
        refine ⟨e, ?_⟩
        rw [show executeWorkflow true dc wt ui sid
          = [("success", PyVal.b false), ("session_id", PyVal.s sid),
             ("error", PyVal.s e), ("mode", PyVal.s "error")]
          from by simp only [executeWorkflow, hdc]; rfl]
        rfl

/-- C4 witness: the claim theorem applied at a filesystem whose
primitives raise, and at a delegation engine that raises, discharging
each hypothesis at those concrete inputs. -/
theorem broad_exception_handling_spec_witness :
    (invokeDDC failingFS [("project_name", "demo")] emptyFS "ts").1
      = "Error: Failed to create design document - " ++ "Permission denied"
    ∧ (invokeTB failingFS constGenerators [] [("project_name", "demo")] emptyFS).1
      = "Error: Failed to generate Terraform infrastructure - " ++ "Permission denied"
    ∧ executeWorkflow true (fun _ _ _ => Except.error "delegation engine crashed")
        "azure_landing_zone" "reqs" "sid"
      = [("success", PyVal.b false), ("session_id", PyVal.s "sid"),
         ("error", PyVal.s "delegation engine crashed"), ("mode", PyVal.s "error")]
    ∧ ∃ e, dictGet (executeWorkflow true (fun _ _ _ => Except.error "delegation engine crashed")
        "azure_landing_zone" "reqs" "sid") "error" = some (PyVal.s e) :=
  ⟨broad_exception_handling_spec.2.2.1 failingFS [("project_name", "demo")] emptyFS "ts"
      "Permission denied" emptyFS rfl,
   broad_exception_handling_spec.2.2.2.1 failingFS constGenerators [] [("project_name", "demo")]
      emptyFS "Permission denied" emptyFS rfl,
   broad_exception_handling_spec.2.2.2.2.1 (fun _ _ _ => Except.error "delegation engine crashed")
      "azure_landing_zone" "reqs" "sid" "delegation engine crashed" rfl,
   broad_exception_handling_spec.2.2.2.2.2 true
      (fun _ _ _ => Except.error "delegation engine crashed") "azure_landing_zone" "reqs" "sid" rfl⟩

/-- C10: a missing or empty `project_name` makes both
`DesignDocumentCreator.invoke` and `TerraformBuilder.invoke` return
exactly "Error: project_name parameter is required" with the
filesystem unchanged (the check precedes every `os.makedirs` and
`open`). -/
theorem missing_project_name_rejected_spec (ops : FSOps) (gen : TBGenerators)
    (extraReq : PyDict) (args : PyArgs) (fs : FileSys) (ts : String)
    (h : lookupStr args "project_name" = none ∨ lookupStr args "project_name" = some "") :
    invokeDDC ops args fs ts = ("Error: project_name parameter is required", fs)
    ∧ invokeTB ops gen extraReq args fs = ("Error: project_name parameter is required", fs) := by
  have hp : argGetD args "project_name" "" = "" := by
    rcases h with h | h <;> simp [argGetD, h]
  constructor
  · simp [invokeDDC, ddcBody, hp]
  · simp [invokeTB, tbBody, hp]

/-- C10 witness: the claim theorem applied at empty args, discharging
the missing-key hypothesis. -/
theorem missing_project_name_rejected_spec_witness :
    invokeDDC realFS [] emptyFS "2024-01-01 00:00:00"
      = ("Error: project_name parameter is required", emptyFS)
    ∧ invokeTB realFS constGenerators [] [] emptyFS
      = ("Error: project_name parameter is required", emptyFS) :=
  missing_project_name_rejected_spec realFS constGenerators [] [] emptyFS
    "2024-01-01 00:00:00" (Or.inl rfl)

/-- C7: `_detect_cloud_provider` checks AWS keywords first, then Azure,
then GCP, returning "unknown" when none match (so AWS wins when
several providers are mentioned), and the shared
`requirements.get("cloud_provider", "azure")` dispatch of
`_create_main_tf` selects the Azure content builder when the detected
provider is "unknown". -/
theorem detect_cloud_provider_spec :
    (∀ content,
      (pyContains (pyLower content) "aws" || pyContains (pyLower content) "amazon") = true →
      detectCloudProvider content = "aws")
    ∧ (∀ content,
      (pyContains (pyLower content) "aws" || pyContains (pyLower content) "amazon") = false →
      (pyContains (pyLower content) "azure" || pyContains (pyLower content) "microsoft") = true →
      detectCloudProvider content = "azure")
    ∧ (∀ content,
      (pyContains (pyLower content) "aws" || pyContains (pyLower content) "amazon") = false →
      (pyContains (pyLower content) "azure" || pyContains (pyLower content) "microsoft") = false →
      (pyContains (pyLower content) "gcp" || pyContains (pyLower content) "google cloud") = true →
      detectCloudProvider content = "gcp")
    ∧ (∀ content,
      (pyContains (pyLower content) "aws" || pyContains (pyLower content) "amazon") = false →
      (pyContains (pyLower content) "azure" || pyContains (pyLower content) "microsoft") = false →
      (pyContains (pyLower content) "gcp" || pyContains (pyLower content) "google cloud") = false →
      detectCloudProvider content = "unknown")
    ∧ detectCloudProvider "Deploy on AWS with Azure AD and Google Cloud DNS" = "aws"
    ∧ (∀ fns pn req, dictGet req "cloud_provider" = some (PyVal.s "unknown") →
        providerDispatch fns pn req = fns.azure pn req) := by
  refine ⟨?_, ?_, ?_, ?_, by decide, ?_⟩
  · intro content h
    simp [detectCloudProvider, h]
  · intro content h1 h2
    simp [detectCloudProvider, h1, h2]
  · intro content h1 h2 h3
    simp [detectCloudProvider, h1, h2, h3]
  · intro content h1 h2 h3
    simp [detectCloudProvider, h1, h2, h3]
  · intro fns pn req h
    unfold providerDispatch
    rw [h]
    rfl

/-- C7 witness: the claim theorem applied at a concrete Azure-only
document and at a concrete requirements dict with provider "unknown",
discharging the hypotheses. -/
theorem detect_cloud_provider_spec_witness :
    detectCloudProvider "Microsoft Azure landing zone" = "azure"
    ∧ providerDispatch constContentFns "demo" [("cloud_provider", PyVal.s "unknown")]
      = constContentFns.azure "demo" [("cloud_provider", PyVal.s "unknown")] :=
  ⟨detect_cloud_provider_spec.2.1 "Microsoft Azure landing zone" (by decide) (by decide),
   detect_cloud_provider_spec.2.2.2.2.2 constContentFns "demo"
     [("cloud_provider", PyVal.s "unknown")] rfl⟩

/-- C6 counterexample: the claim says `invoke` creates the directory
`output/<project_name>/docs` for every non-empty project name, but for
`project_name = "/tmp"` the `os.path.join` semantics make the path
absolute: the code creates `/tmp/docs` and not `output//tmp/docs`. -/
theorem design_document_path_claim_counterexample :
    (invokeDDC realFS [("project_name", "/tmp"), ("project_details", "d")] emptyFS "ts").2.dirs
      = ["/tmp/docs"]
    ∧ "output//tmp/docs"
        ∉ (invokeDDC realFS [("project_name", "/tmp"), ("project_details", "d")] emptyFS "ts").2.dirs
    ∧ (invokeDDC realFS [("project_name", "/tmp"), ("project_details", "d")] emptyFS "ts").1
      = "Design document successfully created at /tmp/docs/design.md" :=
  ⟨by decide, by decide, by decide⟩

/-- C6 (amended): for every non-empty `project_name` that neither
starts nor ends with "/" (so that `os.path.join` degenerates to slash
concatenation), and every `project_details`, `invoke` creates the
directory `output/<project_name>/docs`, writes `design.md` there with
content containing `project_name`, and returns "Design document
successfully created at " followed by that file's path. -/
theorem design_document_creation_spec (pn pd ts : String) (fs : FileSys)
    (h1 : (pn == "") = false)
    (h2 : pyStartsWith pn "/" = false) (h3 : pyEndsWith pn "/" = false) :
    (invokeDDC realFS [("project_name", pn), ("project_details", pd)] fs ts).1
      = "Design document successfully created at " ++ (("output/" ++ pn) ++ "/docs/design.md")
    ∧ (("output/" ++ pn) ++ "/docs")
        ∈ (invokeDDC realFS [("project_name", pn), ("project_details", pd)] fs ts).2.dirs
    ∧ lookupStr (invokeDDC realFS [("project_name", pn), ("project_details", pd)] fs ts).2.files
        (("output/" ++ pn) ++ "/docs/design.md") = some (generateDesignDocument ts pn pd)
    ∧ pyContains (generateDesignDocument ts pn pd) pn = true := by
  rw [invokeDDC_run pn pd ts fs h1 h2 h3]
  refine ⟨rfl, List.mem_cons_self _ _, ?_, generateDesignDocument_contains ts pn pd⟩
  simp [lookupStr]

/-- C6 witness: the amended theorem applied at the concrete project
name "webapp", discharging the shape hypotheses. -/
theorem design_document_creation_spec_witness :
    (invokeDDC realFS [("project_name", "webapp"), ("project_details", "A demo")]
      emptyFS "2024-01-01 00:00:00").1
      = "Design document successfully created at " ++ (("output/" ++ "webapp") ++ "/docs/design.md")
    ∧ pyContains (generateDesignDocument "2024-01-01 00:00:00" "webapp" "A demo") "webapp" = true :=
  ⟨(design_document_creation_spec "webapp" "A demo" "2024-01-01 00:00:00" emptyFS
      (by decide) (by decide) (by decide)).1,
   (design_document_creation_spec "webapp" "A demo" "2024-01-01 00:00:00" emptyFS
      (by decide) (by decide) (by decide)).2.2.2⟩

/-! ## CRUSE Flask interface (interface_flask.py): the connect handler

The module-level `thread_started` flag and the two queues are the state
the SocketIO handlers touch; events are processed one at a time, and
`socketio.start_background_task(cruse_thinking_process)` is counted by
`backgroundTasks`. -/

/-- Module-level state of `interface_flask.py` as seen by the SocketIO
handlers. -/
structure ChatServerState where
  threadStarted : Bool
  backgroundTasks : Nat
  userInputQueue : List String
  guiContextQueue : List String
deriving DecidableEq

/-- State at module load: `thread_started = False`, no background
task, empty queues. -/
def initialServerState : ChatServerState := ⟨false, 0, [], []⟩

/-- The SocketIO events the interface handles on the `/chat`
namespace. -/
inductive SocketEvent where
  | connected
  | userInput (data : String)
  | guiContext (data : String)

/-- Test for a "connect" event. -/
def isConnectEvent : SocketEvent → Bool
  | .connected => true
  | _ => false

/-- The handlers `on_connect`, `handle_user_input` and
`handle_gui_context`: a connect starts the background loop only when
`thread_started` is still false; the other handlers enqueue their
payload (their `socketio.emit` echoes have no effect on this state). -/
def handleSocketEvent (s : ChatServerState) : SocketEvent → ChatServerState
  | .connected =>
    if s.threadStarted then s
    else { s with threadStarted := true, backgroundTasks := s.backgroundTasks + 1 }
  | .userInput d => { s with userInputQueue := s.userInputQueue ++ [d] }
  | .guiContext d => { s with guiContextQueue := s.guiContextQueue ++ [d] }

/-- Processing a sequence of events one at a time from module load. -/
def runSocketEvents (events : List SocketEvent) : ChatServerState :=
  events.foldl handleSocketEvent initialServerState

theorem runSocketEvents_aux (events : List SocketEvent) (s : ChatServerState)
    (hInv : s.backgroundTasks = if s.threadStarted then 1 else 0) :
    (events.foldl handleSocketEvent s).backgroundTasks
      = (if (s.threadStarted || events.any isConnectEvent) then 1 else 0)
    ∧ (events.foldl handleSocketEvent s).threadStarted
      = (s.threadStarted || events.any isConnectEvent) := by
  induction events generalizing s with
  | nil => simp [hInv]
  | cons e t ih =>
    simp only [List.foldl_cons, List.any_cons]
    cases e with
    | connected =>
      by_cases hts : s.threadStarted = true
      · have hs : handleSocketEvent s .connected = s := by simp [handleSocketEvent, hts]
        rw [hs]
        have h := ih s hInv
        simp [hts, h.1, h.2, isConnectEvent]
      · have hts2 : s.threadStarted = false := by simpa using hts
        have hs : handleSocketEvent s .connected
            = { s with threadStarted := true, backgroundTasks := s.backgroundTasks + 1 } := by
          simp [handleSocketEvent, hts2]
        rw [hs]
        have h := ih { s with threadStarted := true, backgroundTasks := s.backgroundTasks + 1 }
          (by simp [hInv, hts2])
        simp [hts2, h.1, h.2, isConnectEvent]
    | userInput d =>
      have h := ih { s with userInputQueue := s.userInputQueue ++ [d] } (by simp [hInv])
      simpa [handleSocketEvent, isConnectEvent] using h
    | guiContext d =>
      have h := ih { s with guiContextQueue := s.guiContextQueue ++ [d] } (by simp [hInv])
      simpa [handleSocketEvent, isConnectEvent] using h

/-- C8: over any sequence of SocketIO events processed one at a time
from module load, the background polling loop is started at most once:
exactly once as soon as some connect occurred, zero times otherwise;
the first connect sets `thread_started`, and a connect arriving with
the flag already set leaves the state unchanged and starts nothing. -/
theorem single_background_task_spec :
    (∀ events : List SocketEvent,
      (runSocketEvents events).backgroundTasks = (if events.any isConnectEvent then 1 else 0)
      ∧ (runSocketEvents events).backgroundTasks ≤ 1
      ∧ (runSocketEvents events).threadStarted = events.any isConnectEvent)
    ∧ (∀ s : ChatServerState, s.threadStarted = true → handleSocketEvent s .connected = s)
    ∧ (∀ s : ChatServerState, (handleSocketEvent s .connected).threadStarted = true) := by
  refine ⟨?_, ?_, ?_⟩
  · intro events
    have h := runSocketEvents_aux events initialServerState rfl
    simp only [initialServerState] at h
    refine ⟨by simpa [runSocketEvents] using h.1, ?_, by simpa [runSocketEvents] using h.2⟩
    have h1 : (runSocketEvents events).backgroundTasks
        = (if events.any isConnectEvent then 1 else 0) := by
      simpa [runSocketEvents] using h.1
    rw [h1]
    split <;> omega
  · intro s hts
    simp [handleSocketEvent, hts]
  · intro s
    by_cases hts : s.threadStarted = true <;> simp [handleSocketEvent, hts]

/-- C8 witness: the claim theorem applied at the already-started state
produced by a first connect, discharging the flag hypothesis. -/
theorem single_background_task_spec_witness :
    handleSocketEvent ⟨true, 1, [], []⟩ .connected = ⟨true, 1, [], []⟩ :=
  single_background_task_spec.2.1 ⟨true, 1, [], []⟩ rfl

/-! ## SHA-256 (FIPS 180-4)

The `/tts` route keys its cache on
`hashlib.sha256(f"{model}|{voice}|{format}|{text}".encode("utf-8")).hexdigest()[:40]`;
SHA-256 is implemented here over byte lists as plain `Nat` arithmetic
with explicit reduction mod `2 ^ 32`, and validated below against the
FIPS test vectors for the empty string and "abc". -/

/-- Right rotation of a 32-bit word. -/
def rotr32 (k a : Nat) : Nat := a / 2 ^ k + a % 2 ^ k * 2 ^ (32 - k)

/-- Right shift of a 32-bit word. -/
def shr32 (k a : Nat) : Nat := a / 2 ^ k

/-- Bitwise complement of a 32-bit word. -/
def not32 (a : Nat) : Nat := Nat.xor a 4294967295

/-- The 64 SHA-256 round constants. -/
def sha256K : List Nat := [
  1116352408, 1899447441, 3049323471, 3921009573, 961987163, 1508970993, 2453635748, 2870763221,
  3624381080, 310598401, 607225278, 1426881987, 1925078388, 2162078206, 2614888103, 3248222580,
  3835390401, 4022224774, 264347078, 604807628, 770255983, 1249150122, 1555081692, 1996064986,
  2554220882, 2821834349, 2952996808, 3210313671, 3336571891, 3584528711, 113926993, 338241895,
  666307205, 773529912, 1294757372, 1396182291, 1695183700, 1986661051, 2177026350, 2456956037,
  2730485921, 2820302411, 3259730800, 3345764771, 3516065817, 3600352804, 4094571909, 275423344,
  430227734, 506948616, 659060556, 883997877, 958139571, 1322822218, 1537002063, 1747873779,
  1955562222, 2024104815, 2227730452, 2361852424, 2428436474, 2756734187, 3204031479, 3329325298]

/-- The SHA-256 initial hash value. -/
def sha256H0 : List Nat :=
  [1779033703, 3144134277, 1013904242, 2773480762, 1359893119, 2600822924, 528734635, 1541459225]

/-- Message-schedule expansion of a 16-word block to 64 words. -/
def sha256Schedule (block : List Nat) : List Nat :=
  (List.range 48).foldl
    (fun w _ =>
      let n := w.length
      let w15 := w.getD (n - 15) 0
      let w2 := w.getD (n - 2) 0
      let s0 := Nat.xor (Nat.xor (rotr32 7 w15) (rotr32 18 w15)) (shr32 3 w15)
      let s1 := Nat.xor (Nat.xor (rotr32 17 w2) (rotr32 19 w2)) (shr32 10 w2)
      w ++ [(w.getD (n - 16) 0 + s0 + w.getD (n - 7) 0 + s1) % 4294967296])
    block

/-- One application of the SHA-256 compression function; the working
state `(a, b, c, d, e, f, g, h)` is an eight-tuple. -/
def sha256Compress (h : List Nat) (block : List Nat) : List Nat :=
  let w := sha256Schedule block
  let fin := (List.range 64).foldl
    (fun st t =>
      let s1 := Nat.xor (Nat.xor (rotr32 6 st.2.2.2.2.1) (rotr32 11 st.2.2.2.2.1))
        (rotr32 25 st.2.2.2.2.1)
      let ch := Nat.xor (Nat.land st.2.2.2.2.1 st.2.2.2.2.2.1)
        (Nat.land (not32 st.2.2.2.2.1) st.2.2.2.2.2.2.1)
      let temp1 := (st.2.2.2.2.2.2.2 + s1 + ch + sha256K.getD t 0 + w.getD t 0) % 4294967296
      let s0 := Nat.xor (Nat.xor (rotr32 2 st.1) (rotr32 13 st.1)) (rotr32 22 st.1)
      let maj := Nat.xor (Nat.xor (Nat.land st.1 st.2.1) (Nat.land st.1 st.2.2.1))
        (Nat.land st.2.1 st.2.2.1)
      let temp2 := (s0 + maj) % 4294967296
      ((temp1 + temp2) % 4294967296, st.1, st.2.1, st.2.2.1,
       (st.2.2.2.1 + temp1) % 4294967296, st.2.2.2.2.1, st.2.2.2.2.2.1, st.2.2.2.2.2.2.1))
    (h.getD 0 0, h.getD 1 0, h.getD 2 0, h.getD 3 0, h.getD 4 0, h.getD 5 0, h.getD 6 0,
      h.getD 7 0)
  [(h.getD 0 0 + fin.1) % 4294967296, (h.getD 1 0 + fin.2.1) % 4294967296,
   (h.getD 2 0 + fin.2.2.1) % 4294967296, (h.getD 3 0 + fin.2.2.2.1) % 4294967296,
   (h.getD 4 0 + fin.2.2.2.2.1) % 4294967296, (h.getD 5 0 + fin.2.2.2.2.2.1) % 4294967296,
   (h.getD 6 0 + fin.2.2.2.2.2.2.1) % 4294967296, (h.getD 7 0 + fin.2.2.2.2.2.2.2) % 4294967296]

/-- Grouping of bytes into big-endian 32-bit words. -/
def bytesToWords : List Nat → List Nat
  | b0 :: b1 :: b2 :: b3 :: rest => (((b0 * 256 + b1) * 256 + b2) * 256 + b3) :: bytesToWords rest
  | _ => []

/-- Big-endian byte encoding of `n` on `k` bytes. -/
def natToBytesBE : Nat → Nat → List Nat
  | 0, _ => []
  | k + 1, n => natToBytesBE k (n / 256) ++ [n % 256]

/-- SHA-256 padding: a `0x80` byte, zeros, and the bit length on eight
bytes, to a multiple of 64 bytes. -/
def sha256Pad (msg : List Nat) : List Nat :=
  msg ++ [128] ++ List.replicate ((55 + 64 - msg.length % 64) % 64) 0
    ++ natToBytesBE 8 (msg.length * 8)

/-- Splitting into 64-byte blocks (fuel-structured so that it reduces
by computation; the list length is enough fuel since each step drops
64 elements of a non-empty list). -/
def splitBlocksFuel : Nat → List Nat → List (List Nat)
  | 0, _ => []
  | fuel + 1, l => if l = [] then [] else l.take 64 :: splitBlocksFuel fuel (l.drop 64)

/-- Splitting a padded message into 64-byte blocks. -/
def splitBlocks (l : List Nat) : List (List Nat) :=
  splitBlocksFuel l.length l

/-- The SHA-256 digest of a byte list, as eight 32-bit words. -/
def sha256Words (msg : List Nat) : List Nat :=
  (splitBlocks (sha256Pad msg)).foldl (fun h block => sha256Compress h (bytesToWords block))
    sha256H0

/-- Lowercase hex digit. -/
def hexDigit (n : Nat) : Char := if n < 10 then Char.ofNat (48 + n) else Char.ofNat (87 + n)

/-- Eight-digit lowercase hex rendering of a 32-bit word. -/
def wordToHex (n : Nat) : List Char :=
  (List.range 8).map fun i => hexDigit (n / 2 ^ (4 * (7 - i)) % 16)

/-- `hashlib.sha256(bytes).hexdigest()`. -/
def sha256Hex (msg : List Nat) : String :=
  String.mk ((sha256Words msg).foldr (fun w acc => wordToHex w ++ acc) [])

/-- UTF-8 encoding of one code point. -/
def utf8EncodeChar (c : Char) : List Nat :=
  let n := c.toNat
  if n < 128 then [n]
  else if n < 2048 then [192 + n / 64, 128 + n % 64]
  else if n < 65536 then [224 + n / 4096, 128 + n / 64 % 64, 128 + n % 64]
  else [240 + n / 262144, 128 + n / 4096 % 64, 128 + n / 64 % 64, 128 + n % 64]

/-- Python `s.encode("utf-8")`. -/
def pyEncodeUtf8 (s : String) : List Nat :=
  s.data.foldr (fun c acc => utf8EncodeChar c ++ acc) []

/-- `hashlib.sha256(s.encode("utf-8")).hexdigest()`. -/
def sha256HexOfString (s : String) : String :=
  sha256Hex (pyEncodeUtf8 s)

set_option maxRecDepth 100000 in
/-- Validation of the SHA-256 embedding against the FIPS 180-4 test
vector for the empty message. -/
theorem sha256_empty_test_vector :
    sha256HexOfString "" = "e3b0c44298fc1c149afbf4c8996fb92427ae41e4649b934ca495991b7852b855" := by
  decide

set_option maxRecDepth 100000 in
/-- Validation of the SHA-256 embedding against the FIPS 180-4 test
vector for "abc". -/
theorem sha256_abc_test_vector :
    sha256HexOfString "abc" = "ba7816bf8f01cfea414140de5dae2223b00361a396177a9cb410ff61f20015ad" := by
  decide

/-! ## The /tts route of interface_flask.py -/

/-- Characters removed by Python `str.strip()`. -/
def isPySpace (c : Char) : Bool :=
  c == ' ' || c == '\t' || c == '\n' || c == '\r' || c == '\x0b' || c == '\x0c'

/-- Python `s.strip()`. -/
def pyStrip (s : String) : String :=
  String.mk (((s.data.dropWhile isPySpace).reverse.dropWhile isPySpace).reverse)

/-- Python `(data.get(key) or default)`: a missing key (`None`) or an
empty string is falsy and selects the default. -/
def pyOr (v : Option String) (dflt : String) : String :=
  match v with
  | some s => if s == "" then dflt else s
  | none => dflt

/-- Python slice `s[:k]`. -/
def pyTake (s : String) (k : Nat) : String := String.mk (s.data.take k)

/-- The module-level TTS configuration of `interface_flask.py`:
`ENABLE_OPENAI_TTS`, whether `openai_client` was initialised,
`OPENAI_TTS_MODEL`, `OPENAI_TTS_VOICE` (forced to "coral"),
`OPENAI_TTS_FORMAT`, `TTS_CACHE_DIR` and `TTS_CACHE_TTL`.  Times are
exact rationals standing for the float seconds of `time.time()` and
`st_mtime`. -/
structure TtsConfig where
  enabled : Bool
  clientAvailable : Bool
  defaultModel : String
  defaultVoice : String
  audioFormat : String
  cacheDir : String
  cacheTtl : ℚ

/-- The cache directory contents: file name to modification time. -/
def lookupMtime : List (String × ℚ) → String → Option ℚ
  | [], _ => none
  | (k, v) :: t, key => if k == key then some v else lookupMtime t key

/-- Outcome of one POST to `/tts`: a JSON error with an HTTP status, a
response served from the cache file (with its `X-Cache` header and no
audio generated), or entry into the OpenAI generation path for the
named cache file. -/
inductive TtsOutcome where
  | errorJson (msg : String) (status : Nat)
  | cacheHit (fname : String) (xCacheHeader : String)
  | generate (fname : String)
deriving DecidableEq

/-- The cache file path
`TTS_CACHE_DIR / f"{h}.{audio_format}"` with
`h = sha256(f"{model}|{voice}|{audio_format}|{text}".encode("utf-8")).hexdigest()[:40]`. -/
def ttsCacheFile (cfg : TtsConfig) (model voice text : String) : String :=
  cfg.cacheDir ++ "/"
    ++ pyTake (sha256HexOfString (model ++ "|" ++ voice ++ "|" ++ cfg.audioFormat ++ "|" ++ text)) 40
    ++ "." ++ cfg.audioFormat

/-- The `tts_generate` route handler up to the point where it either
errors, serves the fresh cache file, or enters the generation path:
`fresh = fname.exists() and (time.time() - fname.stat().st_mtime) <
TTS_CACHE_TTL` with a strict comparison. -/
def ttsGenerate (cfg : TtsConfig) (cache : List (String × ℚ)) (now : ℚ)
    (reqText reqModel reqVoice : Option String) : TtsOutcome :=
  if !(cfg.enabled && cfg.clientAvailable) then .errorJson "OpenAI TTS disabled" 400
  else
    let text := pyStrip (pyOr reqText "")
    if text == "" then .errorJson "No text" 400
    else
      let model := pyStrip (pyOr reqModel cfg.defaultModel)
      let voice := pyStrip (pyOr reqVoice cfg.defaultVoice)
      let fname := ttsCacheFile cfg model voice text
      match lookupMtime cache fname with
      | some mtime => if now - mtime < cfg.cacheTtl then .cacheHit fname "HIT" else .generate fname
      | none => .generate fname

/-- The cache file name a request resolves to after stripping and
defaulting of its fields. -/
def ttsEffectiveFname (cfg : TtsConfig) (reqText reqModel reqVoice : Option String) : String :=
  ttsCacheFile cfg (pyStrip (pyOr reqModel cfg.defaultModel))
    (pyStrip (pyOr reqVoice cfg.defaultVoice)) (pyStrip (pyOr reqText ""))

/-- C5: with TTS enabled (flag set and client initialised) and a
non-blank text, the response is served from the cache with `X-Cache:
HIT` and no audio generated exactly when the file named by the first
40 hex digits of the SHA-256 of `model|voice|format|text` exists in
the cache directory and now minus its mtime is strictly below
`TTS_CACHE_TTL` (a stale or missing file leads to the generation
path); the cache file name is that hash prefix with the format
extension, so two requests with identical model, voice, format and
text map to the same cache file. -/
theorem tts_cache_spec (cfg : TtsConfig) (cache : List (String × ℚ)) (now : ℚ)
    (reqText reqModel reqVoice : Option String)
    (hEn : cfg.enabled = true) (hCl : cfg.clientAvailable = true)
    (hTxt : (pyStrip (pyOr reqText "") == "") = false) :
    (ttsGenerate cfg cache now reqText reqModel reqVoice
        = .cacheHit (ttsEffectiveFname cfg reqText reqModel reqVoice) "HIT"
      ↔ ∃ mtime, lookupMtime cache (ttsEffectiveFname cfg reqText reqModel reqVoice) = some mtime
          ∧ now - mtime < cfg.cacheTtl)
    ∧ (∀ mtime, lookupMtime cache (ttsEffectiveFname cfg reqText reqModel reqVoice) = some mtime →
        ¬(now - mtime < cfg.cacheTtl) →
        ttsGenerate cfg cache now reqText reqModel reqVoice
          = .generate (ttsEffectiveFname cfg reqText reqModel reqVoice))
    ∧ (lookupMtime cache (ttsEffectiveFname cfg reqText reqModel reqVoice) = none →
        ttsGenerate cfg cache now reqText reqModel reqVoice
          = .generate (ttsEffectiveFname cfg reqText reqModel reqVoice))
    ∧ (∀ model voice text, ttsCacheFile cfg model voice text
        = cfg.cacheDir ++ "/"
          ++ pyTake (sha256HexOfString (model ++ "|" ++ voice ++ "|" ++ cfg.audioFormat ++ "|" ++ text)) 40
          ++ "." ++ cfg.audioFormat)
    ∧ (∀ rt2 rm2 rv2,
        pyStrip (pyOr rt2 "") = pyStrip (pyOr reqText "") →
        pyStrip (pyOr rm2 cfg.defaultModel) = pyStrip (pyOr reqModel cfg.defaultModel) →
        pyStrip (pyOr rv2 cfg.defaultVoice) = pyStrip (pyOr reqVoice cfg.defaultVoice) →
        ttsEffectiveFname cfg rt2 rm2 rv2 = ttsEffectiveFname cfg reqText reqModel reqVoice) := by
  have hrun : ttsGenerate cfg cache now reqText reqModel reqVoice
      = match lookupMtime cache (ttsEffectiveFname cfg reqText reqModel reqVoice) with
        | some mtime =>
          if now - mtime < cfg.cacheTtl
          then .cacheHit (ttsEffectiveFname cfg reqText reqModel reqVoice) "HIT"
          else .generate (ttsEffectiveFname cfg reqText reqModel reqVoice)
        | none => .generate (ttsEffectiveFname cfg reqText reqModel reqVoice) := by
    simp only [ttsGenerate, hEn, hCl, hTxt, Bool.and_self, Bool.not_true, Bool.false_eq_true,
      if_false, ttsEffectiveFname]
  refine ⟨?_, ?_, ?_, fun _ _ _ => rfl, ?_⟩
  · rw [hrun]
    cases hm : lookupMtime cache (ttsEffectiveFname cfg reqText reqModel reqVoice) with
    | none => simp
    | some mtime =>
      by_cases hf : now - mtime < cfg.cacheTtl
      · simp [hf]
      · simp only [if_neg hf]
        constructor
        · intro h
          cases h
        · rintro ⟨m2, hm2, hlt⟩
          cases hm2
          exact absurd hlt hf
  · intro mtime hm hstale
    rw [hrun, hm]
    simp [hstale]
  · intro hm
    rw [hrun, hm]
  · intro rt2 rm2 rv2 h1 h2 h3
    unfold ttsEffectiveFname
    rw [h1, h2, h3]

/-- C5 witness: the claim theorem applied at a concrete enabled
configuration, an empty cache and the request text "hello",
discharging the three hypotheses. -/
theorem tts_cache_spec_witness :
    ttsGenerate ⟨true, true, "tts-1", "coral", "mp3", "./logs/tts_cache", 600⟩ [] 0
        (some "hello") none none
      = .generate (ttsEffectiveFname ⟨true, true, "tts-1", "coral", "mp3", "./logs/tts_cache", 600⟩
        (some "hello") none none) :=
  (tts_cache_spec ⟨true, true, "tts-1", "coral", "mp3", "./logs/tts_cache", 600⟩ [] 0
    (some "hello") none none rfl rfl (by decide)).2.2.1 rfl
